import Mathlib

/-!
Verification of the ETL ingestion pipeline (`etlModule.py` and its launcher
scripts) against its natural-language specification.  Python strings are
modelled as `String` through their character lists; Python exceptions are
modelled as explicit outcome values; the fallible
external effects (database statements, filesystem moves, network transfers)
are modelled by boolean oracles recording which step succeeds, and each
embedded function reports the actions it actually performed, in order.
-/

namespace EtlPipeline

/-- Python `str.strip(c)` for a one-character strip set: remove every copy of
`c` from both ends of the string (`convert_values` uses `val.strip('"')`). -/
def pyStripChar (c : Char) (s : String) : String :=
  String.mk (((s.data.dropWhile (fun a => a = c)).reverse.dropWhile (fun a => a = c)).reverse)

/-- Python `str.strip()` with no argument: remove whitespace from both ends. -/
def pyStripWs (s : String) : String :=
  String.mk (((s.data.dropWhile Char.isWhitespace).reverse.dropWhile Char.isWhitespace).reverse)

/-- Python `s.startswith(pre)`. -/
def pyStartsWith (s pre : String) : Bool := decide (pre.data <+: s.data)

/-- Python `s.endswith(suf)`. -/
def pyEndsWith (s suf : String) : Bool := decide (suf.data <:+ s.data)

/-- Python `needle in hay` on strings: substring containment. -/
def pyInB (needle hay : String) : Bool := decide (needle.data <:+: hay.data)

/-- Python `str.split(sep)` for a one-character separator, on char lists:
every occurrence of the separator splits, empty pieces are kept. -/
def splitOnChar (c : Char) : List Char → List (List Char)
  | [] => [[]]
  | a :: rest =>
      let r := splitOnChar c rest
      if a = c then [] :: r
      else
        match r with
        | h :: t => (a :: h) :: t
        | [] => [[a]]

/-- The extension part of Python `os.path.splitext`: computed on the component
after the last slash, and a dot inside the leading run of dots of that
component does not begin an extension. -/
def splitextExt (s : String) : String :=
  let base := (s.data.reverse.takeWhile (fun a => a ≠ '/')).reverse
  let lead := (base.takeWhile (fun a => a = '.')).length
  let tail := base.drop lead
  let rext := tail.reverse.takeWhile (fun a => a ≠ '.')
  if rext.length < tail.length then String.mk ( '.' :: rext.reverse) else ""

/-- Numeric value of a run of decimal digit characters. -/
def digitsVal (ds : List Char) : Nat := ds.foldl (fun a c => 10 * a + (c.toNat - 48)) 0

/-- Model of Python `float(s)` restricted to plain decimal literals
(optional surrounding whitespace, optional sign, digits with an optional
fractional part); the value is represented exactly as a rational, which
agrees with the binary float on every literal the pipeline rules exercise.
Anything outside this shape is a `ValueError`, i.e. `none`. -/
def pyFloat? (s : String) : Option ℚ :=
  let t := (pyStripWs s).data
  let neg : Bool := match t with | '-' :: _ => true | _ => false
  let u := match t with | '-' :: r => r | '+' :: r => r | r => r
  match splitOnChar '.' u with
  | [ip] =>
      if ip ≠ [] ∧ ip.all Char.isDigit then
        some (if neg then -(digitsVal ip : ℚ) else (digitsVal ip : ℚ))
      else none
  | [ip, fp] =>
      if (ip ≠ [] ∨ fp ≠ []) ∧ ip.all Char.isDigit ∧ fp.all Char.isDigit then
        let mag : ℚ := (digitsVal ip : ℚ) + (digitsVal fp : ℚ) / ((10 : ℚ) ^ fp.length)
        some (if neg then -mag else mag)
      else none
  | _ => none

/-- A normalized cell value produced by the pandas load path. -/
inductive CellVal
  | null
  | num (q : ℚ)
  | text (s : String)
  deriving DecidableEq

/-- `convert_values` from `pandas_import` (`etlModule.py` lines 550-560), on a
string cell.  `none` models the `ValueError` that `float` raises on a
parenthesised non-numeric value; note that `val.strip('"')` removes every
leading and trailing quote character, and that it runs before all tests. -/
def convert_values (val : String) : Option CellVal :=
  let v := pyStripChar '"' val
  if pyStartsWith v "(" && pyEndsWith v ")" then
    match pyFloat? (String.mk v.data.tail.dropLast) with
    | some q => some (CellVal.num (-q))
    | none => none
  else if v = "-" then some CellVal.null
  else if v = "<NA>" then some CellVal.null
  else some (CellVal.text v)

/-- Modelled from the claim wording, for comparison with `convert_values`:
trim exactly ONE layer of enclosing double quotes. -/
def stripOneQuoteLayer (s : String) : String :=
  if 2 ≤ s.data.length ∧ s.data.head? = some '"' ∧ s.data.getLast? = some '"' then
    String.mk s.data.tail.dropLast
  else s

/-- Modelled from the claim wording: cell normalization as the claim states
it, with a single layer of enclosing quotes removed. -/
def convert_values_claim (val : String) : Option CellVal :=
  let v := stripOneQuoteLayer val
  if pyStartsWith v "(" && pyEndsWith v ")" then
    match pyFloat? (String.mk v.data.tail.dropLast) with
    | some q => some (CellVal.num (-q))
    | none => none
  else if v = "-" then some CellVal.null
  else if v = "<NA>" then some CellVal.null
  else some (CellVal.text v)

/-- The extension list built by `download_from_sftp` (line 381):
`[ext.strip() for ext in self.file_extensions.split(',')]`. -/
def extensionList (exts : String) : List String :=
  (splitOnChar ',' exts.data).map (fun e => pyStripWs (String.mk e))

/-- The file filter of `download_from_sftp` (line 384): name starts with the
configured prefix, OR name ends with suffix + dot + one configured
extension. -/
def sftp_filter (pfx sfx exts f : String) : Bool :=
  pyStartsWith f pfx ||
    (extensionList exts).any (fun ext => pyEndsWith f (sfx ++ "." ++ ext))

/-- The dot-stripped extension computed by `download_from_s3` (lines 335-338):
`os.path.splitext(file_name)[1]` with the leading dot removed. -/
def s3FileExtension (file_name : String) : String :=
  String.mk (splitextExt file_name).data.tail

/-- The file filter of `download_from_s3` (lines 330-339): the name must start
with the configured prefix, and the dot-stripped extension is tested with
Python `in` against the RAW configured extensions string (substring test). -/
def s3_filter (pfx exts file_name : String) : Bool :=
  pyStartsWith file_name pfx && pyInB (s3FileExtension file_name) exts

/-- Modelled from the claim wording, for comparison with `s3_filter`:
membership of the extension in the configured extension list. -/
def s3_filter_claim (pfx exts file_name : String) : Bool :=
  pyStartsWith file_name pfx &&
    decide (s3FileExtension file_name ∈ extensionList exts)

/-- `download_from_s3` (lines 305-344): object keys, folder markers dropped,
names taken after the last slash, then the prefix+extension filter decides
which files are downloaded. -/
def download_from_s3 (pfx exts : String) (keys : List String) : List String :=
  let files := keys.filter (fun k => ¬ pyEndsWith k "/")
  let names := files.map (fun k => String.mk (k.data.reverse.takeWhile (fun a => a ≠ '/')).reverse)
  names.filter (fun n => s3_filter pfx exts n)

/-- Configuration fields read by `connect_to_database`. -/
structure DbConfig where
  db_type : String
  dbServer : String
  dbName : String
  uid : String
  pwd : String

/-- Result of `connect_to_database`: a connection with its connection string,
or the `ValueError` raised for an unsupported database type. -/
inductive ConnectResult
  | conn (conn_str : String)
  | valueError
  deriving DecidableEq

/-- `connect_to_database` (lines 623-641).  Python `if self.uid and self.pwd`
is string truthiness: both non-empty. -/
def connect_to_database (c : DbConfig) : ConnectResult :=
  if c.db_type = "mssql" then
    let base := "DRIVER=\x7bSQL Server\x7d;SERVER=" ++ c.dbServer ++ ";DATABASE=" ++ c.dbName ++ ";"
    if c.uid ≠ "" ∧ c.pwd ≠ "" then
      ConnectResult.conn (base ++ "UID=" ++ c.uid ++ ";PWD=" ++ c.pwd)
    else
      ConnectResult.conn (base ++ "Trusted_Connection=yes;")
  else ConnectResult.valueError

/-- The name of the write-target view created by `create_table_and_view`. -/
def viewName (tableName : String) : String := tableName ++ "_View"

/-- The command string built by `bcp_import` (lines 463-470); the f-string
interpolates `{tableName}_View` as the target and the backslash line
continuation contributes the indentation spaces.  Python `self.uid > ''`
holds exactly when the uid is non-empty. -/
def bcp_command (dbName tableName file_path row_start batch_size delim server end_of_row uid pwd : String) : String :=
  let base := "bcp " ++ dbName ++ ".dbo." ++ (viewName tableName ++
    (" IN " ++ file_path ++ " -F " ++ row_start ++ " -c             -b " ++ batch_size ++
      " -t" ++ delim ++ " -S " ++ server ++ " -r " ++ end_of_row ++ " "))
  base ++ (if uid ≠ "" then "-U " ++ uid ++ " -P " ++ pwd else "-T")

/-- The SQL statement built by `bulkInsert_import` (lines 502-511), verbatim
from the triple-quoted f-string (target: `{tableName}`). -/
def bulkInsert_sql (tableName file_path delim end_of_row row_start batch_size : String) : String :=
  "\n        " ++ (("BULK INSERT " ++ tableName) ++
    ("\n        FROM \x27" ++ file_path ++
      "\x27\n        WITH (\n            FIELDTERMINATOR = \x27" ++ delim ++
      "\x27,\n            ROWTERMINATOR = \x27" ++ end_of_row ++
      "\x27,\n            FIRSTROW = " ++ row_start ++ ",\n            BATCHSIZE = " ++
      batch_size ++ "\n        )\n        "))

/-- The INSERT statement built by `pandas_import` (line 582), targeting
`{tableName}_View` with one placeholder per data-frame column. -/
def pandas_insert_query (tableName cols : String) (numCols : Nat) : String :=
  ("INSERT INTO " ++ viewName tableName) ++
    (" (" ++ cols ++ ") VALUES (" ++
      String.intercalate ", " (List.replicate numCols "?") ++ ")")

/-- Outcome of Python `subprocess.run(cmd, shell=True)` without `check=True`:
the call returns the exit status normally whatever it is, or raises (for
example when the process cannot be spawned). -/
inductive SubprocOutcome
  | ret (exitCode : Int)
  | exn
  deriving DecidableEq

/-- The message `bcp_import` prints. -/
inductive BcpLog
  | succeeded
  | failed
  deriving DecidableEq

/-- The try/except/else of `bcp_import` around `subprocess.run`
(lines 472-478): the message printed, and whether an exception escapes to the
caller. -/
def bcp_import_report : SubprocOutcome → BcpLog × Bool
  | SubprocOutcome.ret _ => (BcpLog.succeeded, false)
  | SubprocOutcome.exn => (BcpLog.failed, false)

/-- Observable actions of the schema, load and archive paths: each constructor
is one effectful statement of `etlModule.py` that actually completed. -/
inductive Act
  | connect | dropTable | createTable | queryCols | dropView | createView
  | commit | rollback | logError | logInfo | closeCursor | closeConn
  | extract | removeDest | moveArchive | importRun | noImport
  deriving DecidableEq

/-- A Python exception escaping a modelled function: the `NameError` produced
by touching an unbound local, or any other exception. -/
inductive PyErr
  | nameError
  | exn
  deriving DecidableEq

/-- Whether a modelled Python call returned normally or raised. -/
inductive PyResult
  | ok
  | raised (e : PyErr)
  deriving DecidableEq

/-- Which steps of the SQL sequence inside `create_table_and_view` succeed. -/
structure DbEnv where
  connectOk : Bool
  dropTableOk : Bool
  createTableOk : Bool
  queryColsOk : Bool
  dropViewOk : Bool
  createViewOk : Bool
  deriving DecidableEq

/-- Is the action a table or view mutation? -/
def Act.isMutation : Act → Bool
  | Act.dropTable => true
  | Act.createTable => true
  | Act.dropView => true
  | Act.createView => true
  | _ => false

/-- The tail of `create_table_and_view` after a step raised with the
connection bound: the except block logs and rolls back, swallowing the
exception, and the finally block closes cursor and connection. -/
def ctvFail (pre : List Act) : PyResult × List Act :=
  (PyResult.ok, pre ++ [Act.logError, Act.rollback, Act.closeCursor, Act.closeConn])

/-- `create_table_and_view` (lines 795-843): the result seen by the caller,
paired with the successfully executed actions in order.  A failing SQL step
jumps to the except block, which logs, rolls back and SWALLOWS the exception;
the finally block closes cursor and connection.  The whole drop/create
sequence for table and view runs only under `drop_table_if_exists`.  When
`connect` itself raises, the except block evaluates `conn.rollback()` and the
finally block `cursor.close()` on unbound locals, so a `NameError` escapes
instead. -/
def create_table_and_view (env : DbEnv) (drop_table_if_exists : Bool) :
    PyResult × List Act :=
  if ¬ env.connectOk then (PyResult.raised PyErr.nameError, [Act.logError])
  else if ¬ drop_table_if_exists then
    (PyResult.ok, [Act.connect, Act.closeCursor, Act.closeConn])
  else if ¬ env.dropTableOk then ctvFail [Act.connect]
  else if ¬ env.createTableOk then ctvFail [Act.connect, Act.dropTable, Act.commit]
  else if ¬ env.queryColsOk then
    ctvFail [Act.connect, Act.dropTable, Act.commit, Act.createTable, Act.commit, Act.logInfo]
  else if ¬ env.dropViewOk then
    ctvFail [Act.connect, Act.dropTable, Act.commit, Act.createTable, Act.commit, Act.logInfo,
      Act.queryCols]
  else if ¬ env.createViewOk then
    ctvFail [Act.connect, Act.dropTable, Act.commit, Act.createTable, Act.commit, Act.logInfo,
      Act.queryCols, Act.dropView, Act.commit]
  else
    (PyResult.ok, [Act.connect, Act.dropTable, Act.commit, Act.createTable, Act.commit,
      Act.logInfo, Act.queryCols, Act.dropView, Act.commit, Act.createView, Act.commit,
      Act.logInfo, Act.closeCursor, Act.closeConn])

/-- The mutually exclusive import-method switches of the configuration. -/
structure ImportCfg where
  bcp_import_bool : Bool
  pandas_import_bool : Bool
  deriving DecidableEq

/-- `handle_csv` (lines 739-778) for a CSV file: when the file has a header,
run `create_table_and_view`, then dispatch the configured import method
(lines 762-771: `bcp_import` if enabled, else `pandas_import` if enabled,
else a message).  The outer try only observes an exception if one escaped
`create_table_and_view`; `bcp_import` and `pandas_import` catch their own
errors, so the import step itself never raises here, and `handle_csv` always
returns normally. -/
def handle_csv (env : DbEnv) (cfg : ImportCfg) (drop_table_if_exists : Bool)
    (file_has_header : Bool) : List Act :=
  let r := if file_has_header then create_table_and_view env drop_table_if_exists
           else (PyResult.ok, [])
  match r.1 with
  | PyResult.raised _ => r.2 ++ [Act.logError]
  | PyResult.ok =>
      r.2 ++ (if cfg.bcp_import_bool then [Act.importRun]
              else if cfg.pandas_import_bool then [Act.importRun]
              else [Act.noImport])

/-- One candidate file seen by the directory walk of `process_file`, with the
outcomes of the two fallible steps applied to it: the handler call and the
archive move. -/
structure FileSpec where
  name : String
  handlerOk : Bool
  moveOk : Bool
  deriving DecidableEq

/-- The observed processing record for one walked file. -/
structure FileRecord where
  name : String
  matched : Bool
  flagAtStart : Bool
  handlerOk : Bool
  archived : Bool
  deriving DecidableEq

/-- The eligibility test of the walk (line 687):
`file.endswith(self.file_suffix + '.' + self.file_type)`. -/
def matchesPattern (sfx ftype name : String) : Bool :=
  pyEndsWith name (sfx ++ "." ++ ftype)

/-- One iteration of the walk loop of `process_file` (lines 681-720): the
record for this file and the updated `drop_table_if_exists` flag.  A matching
file runs the handler inside a try whose except logs and CONTINUES; on
handler success the flag is set to false (line 698) and the archive move is
attempted inside its own try whose except only logs (lines 707-716). -/
def processStep (sfx ftype : String) (flag : Bool) (f : FileSpec) :
    FileRecord × Bool :=
  if matchesPattern sfx ftype f.name then
    if f.handlerOk then
      (⟨f.name, true, flag, true, f.moveOk⟩, false)
    else
      (⟨f.name, true, flag, false, false⟩, flag)
  else (⟨f.name, false, flag, false, false⟩, flag)

/-- The walk loop of `process_file` over the candidate files in order,
threading the run-scoped `drop_table_if_exists` flag; no per-file failure
breaks the loop. -/
def processWalk (sfx ftype : String) (flag : Bool) :
    List FileSpec → List FileRecord
  | [] => []
  | f :: fs =>
      let s := processStep sfx ftype flag f
      s.1 :: processWalk sfx ftype s.2 fs

/-- Filesystem outcomes for the steps of `extract_file_if_compressed`. -/
structure ArchiveEnv where
  extractOk : Bool
  destExists : Bool
  removeOk : Bool
  moveOk : Bool
  deriving DecidableEq

/-- `extract_file_if_compressed` (lines 419-439): extraction into the
directory of the file, deletion of a pre-existing same-named archive entry,
then the move into the archive folder.  The method contains NO try/except, so
the first failing step raises to the caller; the actions already completed
are reported alongside the outcome. -/
def extract_file_if_compressed (env : ArchiveEnv) (file_path : String) :
    PyResult × List Act :=
  if splitextExt file_path = ".zip" then
    if ¬ env.extractOk then (PyResult.raised PyErr.exn, [])
    else if env.destExists ∧ ¬ env.removeOk then
      (PyResult.raised PyErr.exn, [Act.extract, Act.logInfo])
    else
      let acts := [Act.extract, Act.logInfo] ++
        (if env.destExists then [Act.removeDest] else [])
      if ¬ env.moveOk then (PyResult.raised PyErr.exn, acts)
      else (PyResult.ok, acts ++ [Act.moveArchive])
  else (PyResult.ok, [])

/-- `process_file` (lines 659-724): the `.zip` check and the call to
`extract_file_if_compressed` sit inside the single top-level try, BEFORE the
directory walk; any exception escaping extraction is caught by the method
wide except at line 723, logged, and the method returns — the walk over the
extracted contents never runs.  Returns the walk records and the
extraction-stage actions. -/
def process_file (env : ArchiveEnv) (sfx ftype : String) (flag : Bool)
    (file_path : String) (files : List FileSpec) :
    List FileRecord × List Act :=
  if pyEndsWith file_path ".zip" then
    match extract_file_if_compressed env file_path with
    | (PyResult.raised _, acts) => ([], acts ++ [Act.logError])
    | (PyResult.ok, acts) => (processWalk sfx ftype flag files, acts)
  else (processWalk sfx ftype flag files, [])

/-- Which steps of an SFTP fetch succeed, and the remote directory listing
paired with each transfer outcome. -/
structure SftpEnv where
  connectOk : Bool
  openSftpOk : Bool
  listOk : Bool
  files : List (String × Bool)
  deriving DecidableEq

/-- The observable outcome of `download_from_sftp`: whether an exception
escapes the method, whether the SSH client and the SFTP session were closed,
and the files transferred. -/
structure SftpOutcome where
  raised : Bool
  sshClosed : Bool
  sftpClosed : Bool
  downloaded : List String
  deriving DecidableEq

/-- The download loop of `download_from_sftp` (lines 387-399): files are
transferred in order; a failing `sftp.get` raises and aborts the loop. -/
def sftpLoop : List (String × Bool) → List String
  | [] => []
  | (n, ok) :: rest => if ok then n :: sftpLoop rest else []

/-- `download_from_sftp` (lines 363-406).  The try covers connect, session
opening, listing and the download loop; the except prints and swallows; the
finally closes the SFTP session and then the SSH client.  When `ssh.connect`
or `ssh.open_sftp` raises, the local `sftp` was never bound, so the finally
block raises `NameError` at `sftp.close()` and `ssh.close()` is never
reached: the SSH client stays open and the `NameError` escapes. -/
def download_from_sftp (pfx sfx exts : String) (env : SftpEnv) : SftpOutcome :=
  if ¬ env.connectOk ∨ ¬ env.openSftpOk then ⟨true, false, false, []⟩
  else if ¬ env.listOk then ⟨false, true, true, []⟩
  else
    let filtered := env.files.filter (fun p => sftp_filter pfx sfx exts p.1)
    ⟨false, true, true, sftpLoop filtered⟩

theorem pyInB_eq_true {n h : String} : pyInB n h = true ↔ n.data <:+: h.data := by
  simp [pyInB]

theorem pyInB_self_append (n t : String) : pyInB n (n ++ t) = true := by
  rw [pyInB_eq_true]
  exact ⟨[], t.data, by simp⟩

theorem pyInB_mono_left {n h : String} (t : String) (hi : pyInB n h = true) :
    pyInB n (h ++ t) = true := by
  rw [pyInB_eq_true] at hi ⊢
  exact hi.trans ⟨[], t.data, by simp⟩

theorem pyInB_mono_right {n h : String} (t : String) (hi : pyInB n h = true) :
    pyInB n (t ++ h) = true := by
  rw [pyInB_eq_true] at hi ⊢
  exact hi.trans ⟨t.data, [], by simp⟩

set_option maxRecDepth 100000 in
/-- C1 counterexample: the SQL statement issued by `bulkInsert_import` for
table `T` addresses the table `T` itself and never mentions the view
`T_View`, contradicting the claim that every load strategy writes its rows to
the view and never directly to the table. -/
theorem bulkInsert_mentions_table_not_view :
    pyInB "BULK INSERT T\n" (bulkInsert_sql "T" "f.csv" "," "\n" "2" "1000") = true ∧
    pyInB (viewName "T") (bulkInsert_sql "T" "f.csv" "," "\n" "2" "1000") = false := by
  decide

/-- C1 amended: for every configuration, the command built by `bcp_import`
and the INSERT statement built by `pandas_import` address the view
`<tableName>_View`, while the BULK INSERT statement built by
`bulkInsert_import` addresses the bare table name. -/
theorem load_strategy_targets (dbName tableName fp rs bs delim server eor uid pwd cols : String) (n : Nat) :
    pyInB (viewName tableName) (bcp_command dbName tableName fp rs bs delim server eor uid pwd) = true ∧
    pyInB ("INSERT INTO " ++ viewName tableName) (pandas_insert_query tableName cols n) = true ∧
    pyInB ("BULK INSERT " ++ tableName) (bulkInsert_sql tableName fp delim eor rs bs) = true := by
  refine ⟨?_, ?_, ?_⟩
  · show pyInB (viewName tableName) (("bcp " ++ dbName ++ ".dbo." ++ (viewName tableName ++ _)) ++ _) = true
    apply pyInB_mono_left
    apply pyInB_mono_right
    exact pyInB_self_append _ _
  · exact pyInB_self_append _ _
  · apply pyInB_mono_right
    exact pyInB_self_append _ _

/-- C2 counterexample: with the reset flag set and the CREATE TABLE step
failing, `create_table_and_view` rolls back yet returns normally to its
caller, and `handle_csv` proceeds to run the configured import anyway: the
failure is neither reported to the caller nor treated as fatal for the
load of that file, and nothing aborts the run. -/
theorem create_table_and_view_swallows_failure :
    (create_table_and_view ⟨true, true, false, true, true, true⟩ true).1 = PyResult.ok ∧
    Act.rollback ∈ (create_table_and_view ⟨true, true, false, true, true, true⟩ true).2 ∧
    Act.createTable ∉ (create_table_and_view ⟨true, true, false, true, true, true⟩ true).2 ∧
    Act.importRun ∈ handle_csv ⟨true, true, false, true, true, true⟩ ⟨true, false⟩ true true := by
  decide

/-- C2 amended: when the connection opens but any step of the create/replace
sequence fails with the reset flag set, the transaction is rolled back and
the error logged, yet the exception is swallowed inside
`create_table_and_view`: it returns normally, and `handle_csv` still
proceeds to the import step, so the failure is not fatal for the file load
and the run continues. -/
theorem create_table_and_view_rolls_back_and_returns_ok (env : DbEnv) (cfg : ImportCfg)
    (hc : env.connectOk = true)
    (hf : env.dropTableOk = false ∨ env.createTableOk = false ∨ env.queryColsOk = false ∨
      env.dropViewOk = false ∨ env.createViewOk = false)
    (hi : cfg.bcp_import_bool = true ∨ cfg.pandas_import_bool = true) :
    (create_table_and_view env true).1 = PyResult.ok ∧
    Act.rollback ∈ (create_table_and_view env true).2 ∧
    Act.logError ∈ (create_table_and_view env true).2 ∧
    Act.importRun ∈ handle_csv env cfg true true := by
  obtain ⟨c, dt, ct, qc, dv, cv⟩ := env
  obtain ⟨b1, b2⟩ := cfg
  revert hc hf hi
  revert c dt ct qc dv cv b1 b2
  decide

theorem create_table_and_view_rolls_back_and_returns_ok_witness :
    (create_table_and_view ⟨true, true, true, true, true, false⟩ true).1 = PyResult.ok ∧
    Act.rollback ∈ (create_table_and_view ⟨true, true, true, true, true, false⟩ true).2 ∧
    Act.logError ∈ (create_table_and_view ⟨true, true, true, true, true, false⟩ true).2 ∧
    Act.importRun ∈ handle_csv ⟨true, true, true, true, true, false⟩ ⟨false, true⟩ true true :=
  create_table_and_view_rolls_back_and_returns_ok ⟨true, true, true, true, true, false⟩
    ⟨false, true⟩ rfl (by decide) (by decide)

/-- C5 counterexample: on input `""abc""` (two layers of quotes),
`convert_values` returns the text `abc` — `strip('"')` removes EVERY
enclosing quote character — while the claimed one-layer trim would return
`"abc"`. -/
theorem convert_values_strips_all_quote_layers :
    convert_values "\"\"abc\"\"" = some (CellVal.text "abc") ∧
    convert_values_claim "\"\"abc\"\"" = some (CellVal.text "\"abc\"") ∧
    convert_values "\"\"abc\"\"" ≠ convert_values_claim "\"\"abc\"\"" := by
  decide

/-- C6 counterexample: with configured extensions `csv`, the S3 filter
accepts `data.sv` because its extension `sv` is a SUBSTRING of the raw
configured string, although `sv` is not a member of the configured extension
list — refuting extension-in-configured-extension-list. -/
theorem s3_filter_substring_not_membership :
    s3_filter "d" "csv" "data.sv" = true ∧
    s3_filter_claim "d" "csv" "data.sv" = false ∧
    s3FileExtension "data.sv" = "sv" ∧
    extensionList "csv" = ["csv"] := by
  decide

/-- C7 counterexample: the container extracts successfully but the final move
into the archive fails; the exception escapes `extract_file_if_compressed`,
is caught only by the top-level handler of `process_file`, and the walk over
the extracted contents never runs — even though the extracted file
`as.csv` matches the configured pattern — so downstream processing IS
prevented, contrary to the claim. -/
theorem move_failure_prevents_walk :
    (process_file ⟨true, false, true, false⟩ "s" "csv" true "d.zip" [⟨"as.csv", true, true⟩]).1 = [] ∧
    Act.extract ∈ (process_file ⟨true, false, true, false⟩ "s" "csv" true "d.zip" [⟨"as.csv", true, true⟩]).2 ∧
    Act.logError ∈ (process_file ⟨true, false, true, false⟩ "s" "csv" true "d.zip" [⟨"as.csv", true, true⟩]).2 ∧
    matchesPattern "s" "csv" "as.csv" = true := by
  decide

/-- C8 (code bug): `subprocess.run` is invoked without `check=True`, so a
non-zero exit status of the bcp utility returns normally, the else branch
prints the SUCCESS message, and no exception is raised: the non-zero outcome
is never logged as a failure, contradicting both the claim and the
function documentation. -/
theorem bcp_nonzero_exit_reported_as_success :
    bcp_import_report (SubprocOutcome.ret 1) = (BcpLog.succeeded, false) ∧
    ∀ o : SubprocOutcome, (bcp_import_report o).2 = false := by
  refine ⟨rfl, ?_⟩
  intro o
  cases o <;> rfl

/-- C9 (code bug): when `ssh.connect` raises, the finally block evaluates
`sftp.close()` on a local that was never bound, so a `NameError` escapes and
`ssh.close()` is never reached: the SSH client is NOT released on this exit
path, contradicting the claim that both are released on every exit path. -/
theorem sftp_connect_failure_skips_ssh_close :
    download_from_sftp "p" "s" "csv" ⟨false, true, true, [("px.csv", true)]⟩ =
      ⟨true, false, false, []⟩ := by
  decide

/-- C10: `connect_to_database` yields the ValueError exactly when the
configured database type differs from `mssql`; for `mssql` the returned
connection string carries the configured user id and password when both are
non-empty, and otherwise specifies a trusted connection. -/
theorem connect_to_database_correct (c : DbConfig) :
    (connect_to_database c = ConnectResult.valueError ↔ c.db_type ≠ "mssql") ∧
    (c.db_type = "mssql" → c.uid ≠ "" → c.pwd ≠ "" →
      ∃ s, connect_to_database c = ConnectResult.conn s ∧
        c.uid.data <:+: s.data ∧ c.pwd.data <:+: s.data) ∧
    (c.db_type = "mssql" → (c.uid = "" ∨ c.pwd = "") →
      ∃ s, connect_to_database c = ConnectResult.conn s ∧
        "Trusted_Connection=yes;".data <:+ s.data) := by
  refine ⟨?_, ?_, ?_⟩
  · by_cases hdb : c.db_type = "mssql"
    · simp only [connect_to_database, hdb, if_true]
      split_ifs <;> simp
    · simp [connect_to_database, hdb]
  · intro hdb hu hp
    have hcond : c.uid ≠ "" ∧ c.pwd ≠ "" := ⟨hu, hp⟩
    refine ⟨"DRIVER=\x7bSQL Server\x7d;SERVER=" ++ c.dbServer ++ ";DATABASE=" ++ c.dbName ++ ";" ++
        "UID=" ++ c.uid ++ ";PWD=" ++ c.pwd, by simp [connect_to_database, hdb, hcond], ?_, ?_⟩
    · exact ⟨("DRIVER=\x7bSQL Server\x7d;SERVER=" ++ c.dbServer ++ ";DATABASE=" ++ c.dbName ++ ";" ++ "UID=").data,
        (";PWD=" ++ c.pwd).data, by simp⟩
    · exact ⟨("DRIVER=\x7bSQL Server\x7d;SERVER=" ++ c.dbServer ++ ";DATABASE=" ++ c.dbName ++ ";" ++ "UID=" ++ c.uid ++ ";PWD=").data,
        [], by simp⟩
  · intro hdb hor
    have hcond : ¬ (c.uid ≠ "" ∧ c.pwd ≠ "") := by tauto
    refine ⟨"DRIVER=\x7bSQL Server\x7d;SERVER=" ++ c.dbServer ++ ";DATABASE=" ++ c.dbName ++ ";" ++
        "Trusted_Connection=yes;", by simp [connect_to_database, hdb, hcond], ?_⟩
    exact ⟨("DRIVER=\x7bSQL Server\x7d;SERVER=" ++ c.dbServer ++ ";DATABASE=" ++ c.dbName ++ ";").data, by simp⟩

theorem connect_to_database_correct_witness :
    (∃ s, connect_to_database ⟨"mssql", "srv", "db", "u", "p"⟩ = ConnectResult.conn s ∧
      "u".data <:+: s.data ∧ "p".data <:+: s.data) ∧
    connect_to_database ⟨"oracle", "srv", "db", "u", "p"⟩ = ConnectResult.valueError :=
  ⟨(connect_to_database_correct ⟨"mssql", "srv", "db", "u", "p"⟩).2.1 rfl (by decide) (by decide),
   (connect_to_database_correct ⟨"oracle", "srv", "db", "u", "p"⟩).1.mpr (by decide)⟩

/-- C5 amended: `convert_values` first strips ALL leading and trailing double
quote characters (not one enclosing layer); on the stripped value, a value
fully wrapped in parentheses with numeric content becomes the negated
number, the literal `-` and the sentinel `<NA>` become null, and every
other value passes through as the stripped text. -/
theorem convert_values_characterization (s : String) :
    (pyStripChar '"' s = "-" → convert_values s = some CellVal.null) ∧
    (pyStripChar '"' s = "<NA>" → convert_values s = some CellVal.null) ∧
    (∀ q : ℚ, pyStartsWith (pyStripChar '"' s) "(" = true →
      pyEndsWith (pyStripChar '"' s) ")" = true →
      pyFloat? (String.mk (pyStripChar '"' s).data.tail.dropLast) = some q →
      convert_values s = some (CellVal.num (-q))) ∧
    ((pyStartsWith (pyStripChar '"' s) "(" && pyEndsWith (pyStripChar '"' s) ")") = false →
      pyStripChar '"' s ≠ "-" → pyStripChar '"' s ≠ "<NA>" →
      convert_values s = some (CellVal.text (pyStripChar '"' s))) := by
  refine ⟨?_, ?_, ?_, ?_⟩
  · intro h
    simp only [convert_values]
    rw [h]
    decide
  · intro h
    simp only [convert_values]
    rw [h]
    decide
  · intro q h1 h2 h3
    simp only [convert_values, h1, h2, h3, Bool.and_self, if_true]
  · intro hb hne1 hne2
    simp only [convert_values, hb, Bool.false_eq_true, if_false]
    simp [hne1, hne2]

theorem convert_values_characterization_witness :
    convert_values "(5)" = some (CellVal.num (-5)) ∧
    convert_values "-" = some CellVal.null ∧
    convert_values "<NA>" = some CellVal.null := by
  refine ⟨?_, ?_, ?_⟩
  · exact (convert_values_characterization "(5)").2.2.1 5 (by decide) (by decide) (by decide)
  · exact (convert_values_characterization "-").1 (by decide)
  · exact (convert_values_characterization "<NA>").2.1 (by decide)

theorem sftpLoop_mem_of_mem :
    ∀ (l : List (String × Bool)), ∀ m ∈ sftpLoop l, ∃ b, (m, b) ∈ l := by
  intro l
  induction l with
  | nil => intro m hm; cases hm
  | cons p rest ih =>
      intro m hm
      obtain ⟨n, ok⟩ := p
      by_cases hok : ok = true
      · rw [sftpLoop, hok] at hm
        simp only [if_true] at hm
        rcases List.mem_cons.mp hm with h | h
        · exact ⟨ok, by simp [h, hok]⟩
        · obtain ⟨b, hb⟩ := ih m h
          exact ⟨b, List.mem_cons_of_mem _ hb⟩
      · rw [sftpLoop] at hm
        simp [hok] at hm

/-- C6 amended: the S3 filter accepts exactly the names starting with the
configured prefix whose dot-stripped extension is a SUBSTRING of the raw
configured extensions string (not a member of the extension list); the SFTP
filter accepts exactly the names starting with the prefix or ending with
suffix-dot-extension for some configured extension; and every file either
fetch downloads satisfies its own filter. -/
theorem fetch_filter_rules (pfx sfx exts n f : String) (keys : List String) (env : SftpEnv) :
    (s3_filter pfx exts n = true ↔
      pfx.data <+: n.data ∧ (s3FileExtension n).data <:+: exts.data) ∧
    (sftp_filter pfx sfx exts f = true ↔
      pfx.data <+: f.data ∨ ∃ e ∈ extensionList exts, (sfx ++ "." ++ e).data <:+ f.data) ∧
    (∀ m ∈ download_from_s3 pfx exts keys, s3_filter pfx exts m = true) ∧
    (∀ m ∈ (download_from_sftp pfx sfx exts env).downloaded,
      ∃ b, (m, b) ∈ env.files ∧ sftp_filter pfx sfx exts m = true) := by
  refine ⟨?_, ?_, ?_, ?_⟩
  · simp [s3_filter, pyStartsWith, pyInB]
  · simp [sftp_filter, pyStartsWith, pyEndsWith]
  · intro m hm
    simp only [download_from_s3, List.mem_filter] at hm
    exact hm.2
  · intro m hm
    unfold download_from_sftp at hm
    split_ifs at hm with h1 h2
    · simp at hm
    · obtain ⟨b, hb⟩ := sftpLoop_mem_of_mem _ m hm
      rw [List.mem_filter] at hb
      exact ⟨b, hb.1, by simpa using hb.2⟩
    · simp at hm

theorem fetch_filter_rules_witness :
    s3_filter "d" "csv" "data.csv" = true ∧
    sftp_filter "pre" "suf" "csv" "xsuf.csv" = true :=
  ⟨(fetch_filter_rules "d" "" "csv" "data.csv" "" [] ⟨true, true, true, []⟩).1.mpr
      (by exact ⟨by decide, by decide⟩),
   (fetch_filter_rules "pre" "suf" "csv" "" "xsuf.csv" [] ⟨true, true, true, []⟩).2.1.mpr
      (Or.inr ⟨"csv", by decide, by decide⟩)⟩

theorem processStep_flagAtStart (sfx ft : String) (flag : Bool) (f : FileSpec) :
    (processStep sfx ft flag f).1.flagAtStart = flag := by
  unfold processStep
  split_ifs <;> rfl

theorem processStep_snd_false (sfx ft : String) (f : FileSpec) :
    (processStep sfx ft false f).2 = false := by
  unfold processStep
  split_ifs <;> rfl

theorem processStep_fields (sfx ft : String) (flag : Bool) (f : FileSpec) :
    (processStep sfx ft flag f).1.name = f.name ∧
    (processStep sfx ft flag f).1.handlerOk = (matchesPattern sfx ft f.name && f.handlerOk) ∧
    (processStep sfx ft flag f).1.archived =
      (matchesPattern sfx ft f.name && (f.handlerOk && f.moveOk)) := by
  unfold processStep
  cases hm : matchesPattern sfx ft f.name <;> cases hh : f.handlerOk <;> simp [hm, hh]

theorem processStep_snd_of_handlerOk (sfx ft : String) (flag : Bool) (f : FileSpec)
    (h : (processStep sfx ft flag f).1.handlerOk = true) :
    (processStep sfx ft flag f).2 = false := by
  unfold processStep at h ⊢
  split_ifs at h ⊢
  rfl

theorem processWalk_length (sfx ft : String) :
    ∀ (files : List FileSpec) (flag : Bool),
      (processWalk sfx ft flag files).length = files.length := by
  intro files
  induction files with
  | nil => intro flag; rfl
  | cons f fs ih => intro flag; simp only [processWalk, List.length_cons, ih]

theorem processWalk_all_false_flag (sfx ft : String) :
    ∀ (files : List FileSpec), ∀ r ∈ processWalk sfx ft false files, r.flagAtStart = false := by
  intro files
  induction files with
  | nil => intro r hr; cases hr
  | cons f fs ih =>
      intro r hr
      simp only [processWalk] at hr
      rcases List.mem_cons.mp hr with h | h
      · rw [h]; exact processStep_flagAtStart sfx ft false f
      · rw [processStep_snd_false sfx ft f] at h
        exact ih r h

theorem processWalk_flag_after_ok (sfx ft : String) :
    ∀ (files : List FileSpec) (flag : Bool) (i j : Nat)
      (hi : i < (processWalk sfx ft flag files).length)
      (hj : j < (processWalk sfx ft flag files).length),
      i < j → ((processWalk sfx ft flag files).get ⟨i, hi⟩).handlerOk = true →
      ((processWalk sfx ft flag files).get ⟨j, hj⟩).flagAtStart = false := by
  intro files
  induction files with
  | nil =>
      intro flag i j hi
      exact absurd hi (by simp [processWalk])
  | cons f fs ih =>
      intro flag i j hi hj hij hok
      match i, j with
      | 0, 0 => exact absurd hij (by omega)
      | 0, j' + 1 =>
          have h2 : (processStep sfx ft flag f).2 = false :=
            processStep_snd_of_handlerOk sfx ft flag f hok
          have hj' : j' < (processWalk sfx ft (processStep sfx ft flag f).2 fs).length :=
            Nat.lt_of_succ_lt_succ hj
          have hmem : ((processWalk sfx ft flag (f :: fs)).get ⟨j' + 1, hj⟩) ∈
              processWalk sfx ft (processStep sfx ft flag f).2 fs := by
            exact List.get_mem _ j' hj'
          rw [h2] at hmem
          exact processWalk_all_false_flag sfx ft fs _ hmem
      | i' + 1, j' + 1 =>
          exact ih (processStep sfx ft flag f).2 i' j'
            (Nat.lt_of_succ_lt_succ hi) (Nat.lt_of_succ_lt_succ hj)
            (Nat.lt_of_succ_lt_succ hij) hok

/-- C3: schema creation happens at most once per run: a call to
`create_table_and_view` with the reset flag false performs no table or view
mutation, and in the walk of `process_file` every file coming after a
successfully handled file is processed with the run-scoped
`drop_table_if_exists` flag already forced to false. -/
theorem schema_created_once (env : DbEnv) (sfx ft : String) (flag : Bool)
    (files : List FileSpec) (i j : Nat)
    (hi : i < (processWalk sfx ft flag files).length)
    (hj : j < (processWalk sfx ft flag files).length) (hij : i < j)
    (hok : ((processWalk sfx ft flag files).get ⟨i, hi⟩).handlerOk = true) :
    (create_table_and_view env false).2.filter Act.isMutation = [] ∧
    ((processWalk sfx ft flag files).get ⟨j, hj⟩).flagAtStart = false := by
  constructor
  · obtain ⟨c, dt, ct, qc, dv, cv⟩ := env
    cases c <;> rfl
  · exact processWalk_flag_after_ok sfx ft files flag i j hi hj hij hok

theorem schema_created_once_witness :
    (create_table_and_view ⟨true, true, true, true, true, true⟩ false).2.filter Act.isMutation = [] ∧
    ((processWalk "s" "csv" true [⟨"as.csv", true, true⟩, ⟨"bs.csv", true, true⟩]).get
      ⟨1, by decide⟩).flagAtStart = false :=
  schema_created_once ⟨true, true, true, true, true, true⟩ "s" "csv" true
    [⟨"as.csv", true, true⟩, ⟨"bs.csv", true, true⟩] 0 1 (by decide) (by decide)
    (by decide) (by decide)

theorem processWalk_get_fields (sfx ft : String) :
    ∀ (files : List FileSpec) (flag : Bool) (i : Nat)
      (h : i < (processWalk sfx ft flag files).length) (h2 : i < files.length),
      ((processWalk sfx ft flag files).get ⟨i, h⟩).name = (files.get ⟨i, h2⟩).name ∧
      ((processWalk sfx ft flag files).get ⟨i, h⟩).handlerOk =
        (matchesPattern sfx ft (files.get ⟨i, h2⟩).name && (files.get ⟨i, h2⟩).handlerOk) ∧
      ((processWalk sfx ft flag files).get ⟨i, h⟩).archived =
        (matchesPattern sfx ft (files.get ⟨i, h2⟩).name &&
          ((files.get ⟨i, h2⟩).handlerOk && (files.get ⟨i, h2⟩).moveOk)) := by
  intro files
  induction files with
  | nil =>
      intro flag i h
      exact absurd h (by simp [processWalk])
  | cons f fs ih =>
      intro flag i h h2
      match i with
      | 0 => exact processStep_fields sfx ft flag f
      | i' + 1 =>
          exact ih (processStep sfx ft flag f).2 i'
            (Nat.lt_of_succ_lt_succ h) (Nat.lt_of_succ_lt_succ h2)

/-- C4: batch isolation in the walk of `process_file`: whatever files fail,
the walk still emits one record per candidate file (the batch is never
aborted), and every matching file other than the failing one whose own
handler and move succeed is recorded as loaded and archived. -/
theorem batch_isolation (sfx ft : String) (flag : Bool) (files : List FileSpec)
    (k i : Nat) (hi : i < files.length) (hik : i ≠ k)
    (hother : ∀ (m : Nat) (hm : m < files.length), m ≠ k →
      (files.get ⟨m, hm⟩).handlerOk = true ∧ (files.get ⟨m, hm⟩).moveOk = true)
    (hmatch : matchesPattern sfx ft (files.get ⟨i, hi⟩).name = true) :
    (processWalk sfx ft flag files).length = files.length ∧
    ∃ h : i < (processWalk sfx ft flag files).length,
      ((processWalk sfx ft flag files).get ⟨i, h⟩).handlerOk = true ∧
      ((processWalk sfx ft flag files).get ⟨i, h⟩).archived = true := by
  have hlen := processWalk_length sfx ft files flag
  have hi' : i < (processWalk sfx ft flag files).length := by rw [hlen]; exact hi
  obtain ⟨hho, hmo⟩ := hother i hi hik
  obtain ⟨-, hfh, hfa⟩ := processWalk_get_fields sfx ft files flag i hi' hi
  refine ⟨hlen, hi', ?_, ?_⟩
  · rw [hfh, hmatch, hho]; rfl
  · rw [hfa, hmatch, hho, hmo]; rfl

theorem batch_isolation_witness :
    (processWalk "s" "csv" true
      [⟨"as.csv", true, true⟩, ⟨"bs.csv", false, true⟩, ⟨"cs.csv", true, true⟩]).length = 3 ∧
    ∃ h : 2 < (processWalk "s" "csv" true
      [⟨"as.csv", true, true⟩, ⟨"bs.csv", false, true⟩, ⟨"cs.csv", true, true⟩]).length,
      ((processWalk "s" "csv" true
        [⟨"as.csv", true, true⟩, ⟨"bs.csv", false, true⟩, ⟨"cs.csv", true, true⟩]).get
          ⟨2, h⟩).handlerOk = true ∧
      ((processWalk "s" "csv" true
        [⟨"as.csv", true, true⟩, ⟨"bs.csv", false, true⟩, ⟨"cs.csv", true, true⟩]).get
          ⟨2, h⟩).archived = true :=
  batch_isolation "s" "csv" true
    [⟨"as.csv", true, true⟩, ⟨"bs.csv", false, true⟩, ⟨"cs.csv", true, true⟩]
    1 2 (by decide) (by decide) (by decide) (by decide)

/-- C7 amended: for a file with the archive extension, a failing extraction
raises to the caller and nothing downstream runs (fatal for that file, as
claimed); on the success path the pre-existing same-named archive entry is
deleted exactly when present, before the final move; but a failure of the
final move is NOT merely logged around the move: the exception escapes
`extract_file_if_compressed`, `process_file` catches it at its top level,
logs it, and the walk over the extracted contents never runs. -/
theorem extract_and_archive_error_paths (env : ArchiveEnv) (sfx ft : String) (flag : Bool)
    (fp : String) (files : List FileSpec)
    (hz : splitextExt fp = ".zip") (hz2 : pyEndsWith fp ".zip" = true) :
    (env.extractOk = false →
      (extract_file_if_compressed env fp).1 = PyResult.raised PyErr.exn ∧
      (process_file env sfx ft flag fp files).1 = []) ∧
    (env.extractOk = true → (env.destExists = true → env.removeOk = true) → env.moveOk = true →
      (extract_file_if_compressed env fp).2 =
        [Act.extract, Act.logInfo] ++ (if env.destExists then [Act.removeDest] else []) ++
          [Act.moveArchive] ∧
      (process_file env sfx ft flag fp files).1 = processWalk sfx ft flag files) ∧
    (env.extractOk = true → (env.destExists = true → env.removeOk = true) → env.moveOk = false →
      (process_file env sfx ft flag fp files).1 = [] ∧
      Act.extract ∈ (process_file env sfx ft flag fp files).2 ∧
      Act.logError ∈ (process_file env sfx ft flag fp files).2) := by
  obtain ⟨e, d, r, m⟩ := env
  cases e <;> cases d <;> cases r <;> cases m <;>
    simp_all [extract_file_if_compressed, process_file, hz, hz2]

theorem extract_and_archive_error_paths_witness :
    (process_file ⟨true, true, true, false⟩ "s" "csv" true "d.zip" [⟨"as.csv", true, true⟩]).1 = [] ∧
    Act.extract ∈ (process_file ⟨true, true, true, false⟩ "s" "csv" true "d.zip" [⟨"as.csv", true, true⟩]).2 ∧
    Act.logError ∈ (process_file ⟨true, true, true, false⟩ "s" "csv" true "d.zip" [⟨"as.csv", true, true⟩]).2 :=
  (extract_and_archive_error_paths ⟨true, true, true, false⟩ "s" "csv" true "d.zip"
    [⟨"as.csv", true, true⟩] (by decide) (by decide)).2.2 rfl (fun _ => rfl) rfl

end EtlPipeline
